import Mathlib

/-!
Shallow embedding of `src/acktest/k8s/condition.py`: test-assertion helpers
for Kubernetes-style resource status conditions, and proofs about their
observable behaviour.

The module under verification reads a named condition through an external
Resource Accessor (`resource.get_resource_condition`) and compares its
fields, signalling failures through `pytest.fail`.  The accessor and the
`CustomResourceReference` class live in a collaborating module and are
treated as opaque parameters here, exactly as the design document treats
them (consumed interfaces).
-/

namespace AckTest

/-- Modelled from the spec: `resource.CustomResourceReference` is an opaque
identifier (group, version, plural kind, name, namespace) whose only
behaviour observable in this module is its human-readable string rendering,
used when it is interpolated into a failure message (`f"... {ref}"`).
We therefore carry just that rendering. -/
structure CustomResourceReference where
  render : String
deriving DecidableEq

/-- A condition object as returned by the Resource Accessor: a Python
mapping read with `cond.get(key, None)`, so every field is optional.
The `type` key is matched by the accessor itself and never read by the
helper, so it is not carried here.  Status values observable in the
claims are strings (the Kubernetes wire form) or absent. -/
structure Cond where
  status : Option String
  reason : Option String
  message : Option String
deriving DecidableEq

/-- Modelled from the spec: the consumed Resource Accessor interface,
`getCondition(ref, conditionType) -> Condition | absent`.  In the source it
is `resource.get_resource_condition`; it is a parameter of every embedded
assertion function. -/
abbrev Accessor := CustomResourceReference → String → Option Cond

/-- Python `str()` applied to a string-or-None value: `str(None)` is the
string `"None"`, and `str` of a string is itself. -/
def pyStr : Option String → String
  | some s => s
  | none => "None"

/-- Python `str()` applied to a boolean: `str(True) = "True"`,
`str(False) = "False"`. -/
def pyStrBool : Bool → String
  | true => "True"
  | false => "False"

/-- Character-list prefix test, used to define Python string containment. -/
def isPre : List Char → List Char → Bool
  | [], _ => true
  | _ :: _, [] => false
  | a :: as, b :: bs => a == b && isPre as bs

/-- Character-list containment: does `sub` occur contiguously in the list? -/
def listHas (sub : List Char) : List Char → Bool
  | [] => sub.isEmpty
  | b :: bs => isPre sub (b :: bs) || listHas sub bs

/-- Python's `sub in s` on strings: substring containment (the empty string
is contained in every string). -/
def py_in (sub s : String) : Bool :=
  listHas sub.data s.data

/-- Outcome of one embedded assertion call.  `pytest.fail(msg)` raises a
test-failure exception carrying `msg` (`failed msg`); the other two
constructors are uncaught Python exceptions that escape the helper:
`typeError` models the `TypeError` raised by `expected_message not in None`
when the `message` field is absent, and `attrError` models the
`AttributeError` raised by `None.get(...)` if a fetched condition were
absent.  `ok` is normal return. -/
inductive Outcome
  | ok
  | failed (msg : String)
  | typeError
  | attrError
deriving DecidableEq

/-- Condition-type constant `CONDITION_TYPE_ADOPTED`. -/
def CONDITION_TYPE_ADOPTED : String := "ACK.Adopted"

/-- Condition-type constant `CONDITION_TYPE_READY`. -/
def CONDITION_TYPE_READY : String := "Ready"

/-- Condition-type constant `CONDITION_TYPE_RESOURCE_SYNCED`. -/
def CONDITION_TYPE_RESOURCE_SYNCED : String := "ACK.ResourceSynced"

/-- Condition-type constant `CONDITION_TYPE_TERMINAL`. -/
def CONDITION_TYPE_TERMINAL : String := "ACK.Terminal"

/-- Condition-type constant `CONDITION_TYPE_RECOVERABLE`. -/
def CONDITION_TYPE_RECOVERABLE : String := "ACK.Recoverable"

/-- Condition-type constant `CONDITION_TYPE_ADVISORY`. -/
def CONDITION_TYPE_ADVISORY : String := "ACK.Advisory"

/-- Condition-type constant `CONDITION_TYPE_LATE_INITIALIZED`. -/
def CONDITION_TYPE_LATE_INITIALIZED : String := "ACK.LateInitialized"

/-- Condition-type constant `CONDITION_TYPE_REFERENCES_RESOLVED`. -/
def CONDITION_TYPE_REFERENCES_RESOLVED : String := "ACK.ReferencesResolved"

/-- The fixed terminal-error reason string `TERMINAL_REASON`. -/
def TERMINAL_REASON : String :=
  "Terminal error, the custom resource Spec needs to be updated before any further sync can occur"

/-- Embedding of `assert_type_status(ref, cond_type_match, cond_status_match)`:
fetch the condition of the requested type; fail with the not-found message if
absent; otherwise compare `str(cond.get('status', None))` against
`str(cond_status_match)` and fail with the mismatch message if unequal.
`pytest.fail` raises, so each failure aborts the call at the point of
detection. -/
def assert_type_status (get : Accessor) (ref : CustomResourceReference)
    (cond_type_match : String) (cond_status_match : Bool) : Outcome :=
  match get ref cond_type_match with
  | none =>
      .failed ("Failed to find " ++ cond_type_match ++ " condition in resource "
        ++ ref.render)
  | some cond =>
      let cond_status := cond.status
      if pyStr cond_status ≠ pyStrBool cond_status_match then
        .failed ("Expected " ++ cond_type_match ++ " condition to have status "
          ++ pyStrBool cond_status_match ++ " but found " ++ pyStr cond_status)
      else
        .ok

/-- Embedding of `assert_ready_status(ref, cond_status_match)`: delegates to
`assert_type_status` with the condition type fixed to `"Ready"`. -/
def assert_ready_status (get : Accessor) (ref : CustomResourceReference)
    (cond_status_match : Bool) : Outcome :=
  assert_type_status get ref "Ready" cond_status_match

/-- Embedding of `assert_ready(ref)`: `assert_ready_status(ref, True)`. -/
def assert_ready (get : Accessor) (ref : CustomResourceReference) : Outcome :=
  assert_ready_status get ref true

/-- Embedding of `assert_not_ready(ref)`: `assert_ready_status(ref, False)`. -/
def assert_not_ready (get : Accessor) (ref : CustomResourceReference) : Outcome :=
  assert_ready_status get ref false

/-- Embedding of `assert_terminal(ref, expected_message)`.  First runs
`assert_type_status(ref, "Ready", False)`; if that raised, its outcome is the
call's outcome.  Otherwise the `"Ready"` condition is fetched again and
dereferenced without a presence check (`cond.get(...)` on `None` would raise
`AttributeError`, the `attrError` outcome).  The `reason` field is compared
with `!=` against `TERMINAL_REASON` (Python `None != str` is true), then
`expected_message not in message` is evaluated: if `message` is `None` this
raises `TypeError` (the `typeError` outcome), otherwise it is a substring
test. -/
def assert_terminal (get : Accessor) (ref : CustomResourceReference)
    (expected_message : String) : Outcome :=
  match assert_type_status get ref "Ready" false with
  | .ok =>
      match get ref "Ready" with
      | none => .attrError
      | some cond =>
          let reason := cond.reason
          if reason ≠ some TERMINAL_REASON then
            .failed ("Expected Ready condition to have reason \x27"
              ++ TERMINAL_REASON ++ "\x27 but found \x27" ++ pyStr reason ++ "\x27")
          else
            match cond.message with
            | none => .typeError
            | some message =>
                if ¬ py_in expected_message message then
                  .failed ("Expected Ready condition to have message containing \x27"
                    ++ expected_message ++ "\x27 but found \x27" ++ message ++ "\x27")
                else
                  .ok
  | out => out

/-- Instrumented variant of `assert_type_status` that also counts the reads
it performs through the Resource Accessor.  Its first component agrees with
`assert_type_status` (proved below); exactly one `get_resource_condition`
call happens, before any check. -/
def assert_type_status_instr (get : Accessor) (ref : CustomResourceReference)
    (cond_type_match : String) (cond_status_match : Bool) : Outcome × Nat :=
  match get ref cond_type_match with
  | none =>
      (.failed ("Failed to find " ++ cond_type_match ++ " condition in resource "
        ++ ref.render), 1)
  | some cond =>
      let cond_status := cond.status
      if pyStr cond_status ≠ pyStrBool cond_status_match then
        (.failed ("Expected " ++ cond_type_match ++ " condition to have status "
          ++ pyStrBool cond_status_match ++ " but found " ++ pyStr cond_status), 1)
      else
        (.ok, 1)

/-- Instrumented variant of `assert_terminal` counting accessor reads: the
initial `assert_type_status` performs one read; if it raised, the exception
propagates and no further read happens; otherwise the re-fetch of `"Ready"`
is a second read. -/
def assert_terminal_instr (get : Accessor) (ref : CustomResourceReference)
    (expected_message : String) : Outcome × Nat :=
  match assert_type_status_instr get ref "Ready" false with
  | (.ok, n) =>
      match get ref "Ready" with
      | none => (.attrError, n + 1)
      | some cond =>
          let reason := cond.reason
          if reason ≠ some TERMINAL_REASON then
            (.failed ("Expected Ready condition to have reason \x27"
              ++ TERMINAL_REASON ++ "\x27 but found \x27" ++ pyStr reason ++ "\x27"), n + 1)
          else
            match cond.message with
            | none => (.typeError, n + 1)
            | some message =>
                if ¬ py_in expected_message message then
                  (.failed ("Expected Ready condition to have message containing \x27"
                    ++ expected_message ++ "\x27 but found \x27" ++ message ++ "\x27"), n + 1)
                else
                  (.ok, n + 1)
  | (out, n) => (out, n)

/-- Does an outcome witness the `None`-dereference (`AttributeError`) of the
re-fetched condition in `assert_terminal`? -/
def hitsAbsentDeref : Outcome → Bool
  | .attrError => true
  | _ => false

/-! ### Concrete fixtures used by witnesses and counterexamples -/

/-- A concrete resource reference. -/
def exRef : CustomResourceReference := ⟨"default/test-resource"⟩

/-- A concrete `Ready` condition with status `"True"`. -/
def condReadyTrue : Cond := { status := some "True", reason := none, message := none }

/-- Accessor exposing only a `Ready` condition with status `"True"`. -/
def getReadyTrue : Accessor := fun _ t => if t = "Ready" then some condReadyTrue else none

/-- Accessor on a resource carrying no conditions at all. -/
def getAbsent : Accessor := fun _ _ => none

/-- A terminal `Ready` condition whose `message` key is missing. -/
def condTerminalNoMsg : Cond :=
  { status := some "False", reason := some TERMINAL_REASON, message := none }

/-- Accessor exposing only `condTerminalNoMsg` as the `Ready` condition. -/
def getTerminalNoMsg : Accessor :=
  fun _ t => if t = "Ready" then some condTerminalNoMsg else none

/-- A `Ready` condition with status `"False"` and no `reason` key. -/
def condNoReason : Cond :=
  { status := some "False", reason := none, message := some "field X is immutable" }

/-- Accessor exposing only `condNoReason` as the `Ready` condition. -/
def getNoReason : Accessor := fun _ t => if t = "Ready" then some condNoReason else none

/-- A concrete resource reference whose rendering shares no text with the
status-mismatch message. -/
def exRefC6 : CustomResourceReference := ⟨"test-resource-ref"⟩

/-- A `Ready` condition with the three-valued status `"Unknown"`. -/
def condUnknown : Cond := { status := some "Unknown", reason := none, message := none }

/-- Accessor exposing only `condUnknown` as the `Ready` condition. -/
def getUnknown : Accessor := fun _ t => if t = "Ready" then some condUnknown else none

/-! ### Helper lemmas -/

theorem isPre_append (x b : List Char) : isPre x (x ++ b) = true := by
  induction x with
  | nil => rfl
  | cons c cs ih => simp [isPre, ih]

theorem listHas_append (x a b : List Char) : listHas x (a ++ (x ++ b)) = true := by
  induction a with
  | nil =>
    cases x with
    | nil =>
      cases b with
      | nil => rfl
      | cons c cs => simp [listHas, isPre]
    | cons c cs =>
      have h := isPre_append (c :: cs) b
      simp only [List.cons_append] at h
      simp [listHas, h]
  | cons c cs ih => simp [listHas, ih]

/-- Master containment lemma: if the character data of `s` decomposes as
`p ++ x.data ++ q`, then Python's `x in s` is true. -/
theorem py_in_true_of (x s : String) (p q : List Char)
    (h : s.data = p ++ (x.data ++ q)) : py_in x s = true := by
  unfold py_in
  rw [h]
  exact listHas_append x.data p q

/-- Normal return of `assert_type_status` happens exactly when the accessor
yields a condition whose stringified status equals the stringified expected
status. -/
theorem assert_type_status_eq_ok_iff (get : Accessor) (ref : CustomResourceReference)
    (t : String) (b : Bool) :
    assert_type_status get ref t b = .ok ↔
      ∃ c, get ref t = some c ∧ pyStr c.status = pyStrBool b := by
  unfold assert_type_status
  cases h : get ref t with
  | none => simp
  | some c =>
    by_cases hs : pyStr c.status = pyStrBool b <;> simp [hs]

/-- Every `assert_type_status` call either returns normally or raises
through `pytest.fail`; it never raises any other exception. -/
theorem assert_type_status_ok_or_failed (get : Accessor) (ref : CustomResourceReference)
    (t : String) (b : Bool) :
    assert_type_status get ref t b = .ok ∨
      ∃ m, assert_type_status get ref t b = .failed m := by
  unfold assert_type_status
  cases get ref t with
  | none => exact Or.inr ⟨_, rfl⟩
  | some c =>
    by_cases hs : pyStr c.status = pyStrBool b
    · exact Or.inl (by simp [hs])
    · exact Or.inr ⟨"Expected " ++ t ++ " condition to have status "
        ++ pyStrBool b ++ " but found " ++ pyStr c.status, by simp [hs]⟩

/-- The instrumented `assert_type_status` computes the same outcome as the
plain embedding and performs exactly one accessor read. -/
theorem assert_type_status_instr_spec (get : Accessor) (ref : CustomResourceReference)
    (t : String) (b : Bool) :
    assert_type_status_instr get ref t b = (assert_type_status get ref t b, 1) := by
  unfold assert_type_status_instr assert_type_status
  cases get ref t with
  | none => rfl
  | some c => by_cases hs : pyStr c.status = pyStrBool b <;> simp [hs]

/-- The instrumented `assert_terminal` computes the same outcome as the plain
embedding; it performs two accessor reads when the initial status check
returned normally and one read when that check raised. -/
theorem assert_terminal_instr_spec (get : Accessor) (ref : CustomResourceReference)
    (s : String) :
    assert_terminal_instr get ref s =
      (assert_terminal get ref s,
        if assert_type_status get ref "Ready" false = .ok then 2 else 1) := by
  unfold assert_terminal_instr assert_terminal
  rw [assert_type_status_instr_spec]
  rcases assert_type_status_ok_or_failed get ref "Ready" false with hts | ⟨m, hts⟩
  · rw [hts]
    cases hg : get ref "Ready" with
    | none => simp
    | some c =>
      by_cases hr : c.reason = some TERMINAL_REASON
      · cases hm : c.message with
        | none => simp [hr, hm]
        | some mm =>
          by_cases hin : py_in s mm = true
          · simp [hr, hm, hin]
          · simp [hr, hm, hin]
      · simp [hr]
  · rw [hts]
    simp

/-! ### Claims -/

/-- C5: `assert_ready ref` has the same outcome as
`assert_type_status ref "Ready" true`, `assert_not_ready ref` the same as
`assert_type_status ref "Ready" false`, and `assert_ready_status ref b`
delegates to `assert_type_status` with the condition type fixed to `"Ready"`
and expected status `b`.  All three are definitional delegations in the
source. -/
theorem c5_ready_delegation (get : Accessor) (ref : CustomResourceReference) :
    assert_ready get ref = assert_type_status get ref "Ready" true ∧
    assert_not_ready get ref = assert_type_status get ref "Ready" false ∧
    ∀ b : Bool, assert_ready_status get ref b = assert_type_status get ref "Ready" b :=
  ⟨rfl, rfl, fun _ => rfl⟩

/-- C2: `assert_terminal ref s` returns normally exactly when the accessor's
`"Ready"` condition exists, its status stringifies to `"False"`, its reason
equals `TERMINAL_REASON` exactly, and its message is present and contains
`s` as a substring.  In every other case the call raises (a `pytest.fail`
failure, or a `TypeError` when the message is absent), so the assertion
never passes when any of the three facts fails. -/
theorem c2_assert_terminal_ok_iff (get : Accessor) (ref : CustomResourceReference)
    (s : String) :
    assert_terminal get ref s = .ok ↔
      ∃ c, get ref "Ready" = some c ∧ pyStr c.status = "False" ∧
        c.reason = some TERMINAL_REASON ∧
        ∃ m, c.message = some m ∧ py_in s m = true := by
  constructor
  · intro hok
    rcases assert_type_status_ok_or_failed get ref "Ready" false with hts | ⟨m, hts⟩
    · obtain ⟨c, hc, hstat⟩ := (assert_type_status_eq_ok_iff get ref "Ready" false).mp hts
      refine ⟨c, hc, hstat, ?_⟩
      unfold assert_terminal at hok
      rw [hts] at hok
      simp only [hc] at hok
      by_cases hr : c.reason = some TERMINAL_REASON
      · refine ⟨hr, ?_⟩
        rw [if_neg (by simp [hr])] at hok
        cases hm : c.message with
        | none => rw [hm] at hok; exact Outcome.noConfusion hok
        | some mm =>
          rw [hm] at hok
          by_cases hin : py_in s mm = true
          · exact ⟨mm, rfl, hin⟩
          · simp [hin] at hok
      · rw [if_pos hr] at hok
        exact Outcome.noConfusion hok
    · unfold assert_terminal at hok
      rw [hts] at hok
      exact Outcome.noConfusion hok
  · rintro ⟨c, hc, hstat, hr, mm, hm, hin⟩
    have hts : assert_type_status get ref "Ready" false = .ok :=
      (assert_type_status_eq_ok_iff get ref "Ready" false).mpr ⟨c, hc, hstat⟩
    unfold assert_terminal
    rw [hts]
    simp only [hc]
    rw [if_neg (by simp [hr]), hm]
    simp [hin]

/-- C3: if the accessor yields for type `t` a condition whose status field is
the string representation of the boolean `b`, then
`assert_type_status ref t b` returns normally, and
`assert_type_status ref t (not b)` raises the status-mismatch failure. -/
theorem c3_type_status_matches (get : Accessor) (ref : CustomResourceReference)
    (t : String) (b : Bool) (c : Cond)
    (hc : get ref t = some c) (hs : c.status = some (pyStrBool b)) :
    assert_type_status get ref t b = .ok ∧
    assert_type_status get ref t (!b) =
      .failed ("Expected " ++ t ++ " condition to have status "
        ++ pyStrBool (!b) ++ " but found " ++ pyStrBool b) := by
  have h1 : pyStr c.status = pyStrBool b := by rw [hs]; rfl
  have hbb : pyStrBool b ≠ pyStrBool (!b) := by cases b <;> decide
  constructor
  · exact (assert_type_status_eq_ok_iff get ref t b).mpr ⟨c, hc, h1⟩
  · simp [assert_type_status, hc, h1, hbb]

/-- Witness for C3 at a concrete accessor whose `Ready` condition has status
`"True"`. -/
theorem c3_type_status_matches_witness :
    (getReadyTrue exRef "Ready" = some condReadyTrue ∧
     condReadyTrue.status = some (pyStrBool true)) ∧
    (assert_type_status getReadyTrue exRef "Ready" true = .ok ∧
     assert_type_status getReadyTrue exRef "Ready" (!true) =
       .failed ("Expected " ++ "Ready" ++ " condition to have status "
         ++ pyStrBool (!true) ++ " but found " ++ pyStrBool true)) :=
  ⟨⟨by decide, by decide⟩,
    c3_type_status_matches getReadyTrue exRef "Ready" true condReadyTrue
      (by decide) (by decide)⟩

/-- C4: if the accessor yields no condition of type `t`, then
`assert_type_status ref t b` raises the condition-not-found failure for
every expected status `b`; that failure message contains the type name `t`
and the stringified reference, and the outcome is exactly the not-found
message, so the status comparison is never reached. -/
theorem c4_condition_not_found (get : Accessor) (ref : CustomResourceReference)
    (t : String) (b : Bool) (h : get ref t = none) :
    assert_type_status get ref t b =
      .failed ("Failed to find " ++ t ++ " condition in resource " ++ ref.render) ∧
    py_in t ("Failed to find " ++ t ++ " condition in resource " ++ ref.render) = true ∧
    py_in ref.render
      ("Failed to find " ++ t ++ " condition in resource " ++ ref.render) = true := by
  refine ⟨by simp [assert_type_status, h], ?_, ?_⟩
  · exact py_in_true_of t _ "Failed to find ".data
      (" condition in resource " ++ ref.render).data
      (by simp [String.data_append, List.append_assoc])
  · exact py_in_true_of ref.render _
      ("Failed to find " ++ t ++ " condition in resource ").data []
      (by simp [String.data_append, List.append_assoc])

/-- Witness for C4 at a concrete accessor exposing no conditions. -/
theorem c4_condition_not_found_witness :
    (getAbsent exRef "Ready" = none) ∧
    (assert_type_status getAbsent exRef "Ready" true =
      .failed ("Failed to find " ++ "Ready" ++ " condition in resource " ++ exRef.render) ∧
     py_in "Ready"
       ("Failed to find " ++ "Ready" ++ " condition in resource " ++ exRef.render) = true ∧
     py_in exRef.render
       ("Failed to find " ++ "Ready" ++ " condition in resource " ++ exRef.render) = true) :=
  ⟨rfl, c4_condition_not_found getAbsent exRef "Ready" true rfl⟩

/-- C9: the re-fetched `"Ready"` condition in `assert_terminal` is
dereferenced without a presence check, but the accessor is a function of the
reference and condition type, so a successful initial
`assert_type_status ref "Ready" False` guarantees the second fetch is
present: the call can never produce the `AttributeError` outcome of a
`None` dereference. -/
theorem c9_no_absent_deref (get : Accessor) (ref : CustomResourceReference)
    (s : String) :
    hitsAbsentDeref (assert_terminal get ref s) = false := by
  rcases assert_type_status_ok_or_failed get ref "Ready" false with hts | ⟨m, hts⟩
  · obtain ⟨c, hc, -⟩ := (assert_type_status_eq_ok_iff get ref "Ready" false).mp hts
    by_cases hr : c.reason = some TERMINAL_REASON
    · cases hm : c.message with
      | none => simp [assert_terminal, hts, hc, hr, hm, hitsAbsentDeref]
      | some mm =>
        by_cases hin : py_in s mm = true
        · simp [assert_terminal, hts, hc, hr, hm, hin, hitsAbsentDeref]
        · simp [assert_terminal, hts, hc, hr, hm, hin, hitsAbsentDeref]
    · simp [assert_terminal, hts, hc, hr, hitsAbsentDeref]
  · simp [assert_terminal, hts, hitsAbsentDeref]

/-- C7: status comparison is string-based.  Given a condition of type `t`:
with raw status `"True"`, `assert_type_status ref t True` passes; with raw
status `"False"`, `"Unknown"`, or an absent status key, it raises the
status-mismatch failure (not condition-not-found); and with `"Unknown"` the
expectation `False` also raises a status mismatch, so `"Unknown"` compares
unequal to both boolean expectations. -/
theorem c7_string_based_status (get : Accessor) (ref : CustomResourceReference)
    (t : String) (c : Cond) (hc : get ref t = some c) :
    (c.status = some "True" → assert_type_status get ref t true = .ok) ∧
    ((c.status = some "False" ∨ c.status = some "Unknown" ∨ c.status = none) →
      assert_type_status get ref t true =
        .failed ("Expected " ++ t ++ " condition to have status "
          ++ pyStrBool true ++ " but found " ++ pyStr c.status)) ∧
    (c.status = some "Unknown" →
      assert_type_status get ref t false =
        .failed ("Expected " ++ t ++ " condition to have status "
          ++ pyStrBool false ++ " but found " ++ pyStr c.status)) := by
  refine ⟨?_, ?_, ?_⟩
  · intro h
    exact (assert_type_status_eq_ok_iff get ref t true).mpr ⟨c, hc, by rw [h]; rfl⟩
  · intro h
    have hne : pyStr c.status ≠ pyStrBool true := by
      rcases h with h | h | h <;> rw [h] <;> decide
    simp [assert_type_status, hc, hne]
  · intro h
    have hne : pyStr c.status ≠ pyStrBool false := by rw [h]; decide
    simp [assert_type_status, hc, hne]

/-- Witness for C7 at a concrete accessor whose `Ready` condition has the
three-valued status `"Unknown"`. -/
theorem c7_string_based_status_witness :
    (getUnknown exRef "Ready" = some condUnknown) ∧
    ((condUnknown.status = some "True" →
       assert_type_status getUnknown exRef "Ready" true = .ok) ∧
     ((condUnknown.status = some "False" ∨ condUnknown.status = some "Unknown" ∨
         condUnknown.status = none) →
       assert_type_status getUnknown exRef "Ready" true =
         .failed ("Expected " ++ "Ready" ++ " condition to have status "
           ++ pyStrBool true ++ " but found " ++ pyStr condUnknown.status)) ∧
     (condUnknown.status = some "Unknown" →
       assert_type_status getUnknown exRef "Ready" false =
         .failed ("Expected " ++ "Ready" ++ " condition to have status "
           ++ pyStrBool false ++ " but found " ++ pyStr condUnknown.status))) :=
  ⟨by decide, c7_string_based_status getUnknown exRef "Ready" condUnknown (by decide)⟩

/-- C1 counterexample: with a `Ready` condition of status `"False"`, reason
exactly `TERMINAL_REASON`, and no `message` key, `assert_terminal` raises an
uncaught `TypeError` (from `expected_message not in None`), not the
message-mismatch `pytest.fail` signal the claim asserts. -/
theorem c1_counterexample :
    assert_terminal getTerminalNoMsg exRef "boom" = Outcome.typeError := by decide

/-- C1 (amended): if the `Ready` condition has status stringifying to
`"False"`, reason exactly `TERMINAL_REASON`, and an absent `message` field,
then `assert_terminal` raises an uncaught `TypeError` from evaluating
`expected_message not in None`; it neither completes normally nor raises a
message-mismatch test failure. -/
theorem c1_missing_message_raises (get : Accessor) (ref : CustomResourceReference)
    (s : String) (c : Cond) (hc : get ref "Ready" = some c)
    (hs : pyStr c.status = "False") (hr : c.reason = some TERMINAL_REASON)
    (hm : c.message = none) :
    assert_terminal get ref s = Outcome.typeError := by
  have hts : assert_type_status get ref "Ready" false = .ok :=
    (assert_type_status_eq_ok_iff get ref "Ready" false).mpr ⟨c, hc, hs⟩
  simp [assert_terminal, hts, hc, hr, hm]

/-- Witness for the amended C1 at a concrete terminal condition with a
missing message. -/
theorem c1_missing_message_raises_witness :
    (getTerminalNoMsg exRef "Ready" = some condTerminalNoMsg ∧
     pyStr condTerminalNoMsg.status = "False" ∧
     condTerminalNoMsg.reason = some TERMINAL_REASON ∧
     condTerminalNoMsg.message = none) ∧
    assert_terminal getTerminalNoMsg exRef "oops" = Outcome.typeError :=
  ⟨⟨by decide, by decide, by decide, by decide⟩,
    c1_missing_message_raises getTerminalNoMsg exRef "oops" condTerminalNoMsg
      (by decide) (by decide) (by decide) (by decide)⟩

/-- C10: if the re-fetched `Ready` condition has status `"False"` but no
`reason` key, the absent reason compares unequal to `TERMINAL_REASON`
(Python `None != str`), so `assert_terminal` raises the reason-mismatch
failure, whose text renders the absent reason as `None`; it does not crash
and never reaches the message check. -/
theorem c10_missing_reason_mismatch (get : Accessor) (ref : CustomResourceReference)
    (s : String) (c : Cond) (hc : get ref "Ready" = some c)
    (hs : pyStr c.status = "False") (hr : c.reason = none) :
    assert_terminal get ref s =
      .failed ("Expected Ready condition to have reason \x27" ++ TERMINAL_REASON
        ++ "\x27 but found \x27" ++ "None" ++ "\x27") := by
  have hts : assert_type_status get ref "Ready" false = .ok :=
    (assert_type_status_eq_ok_iff get ref "Ready" false).mpr ⟨c, hc, hs⟩
  simp [assert_terminal, hts, hc, hr, pyStr]

/-- Witness for C10 at a concrete `Ready` condition lacking a reason key. -/
theorem c10_missing_reason_mismatch_witness :
    (getNoReason exRef "Ready" = some condNoReason ∧
     pyStr condNoReason.status = "False" ∧ condNoReason.reason = none) ∧
    assert_terminal getNoReason exRef "boom" =
      .failed ("Expected Ready condition to have reason \x27" ++ TERMINAL_REASON
        ++ "\x27 but found \x27" ++ "None" ++ "\x27") :=
  ⟨⟨by decide, by decide, by decide⟩,
    c10_missing_reason_mismatch getNoReason exRef "boom" condNoReason
      (by decide) (by decide) (by decide)⟩

/-- C8 counterexample: with no `Ready` condition at all, the initial status
check inside `assert_terminal` raises, the exception propagates, and the
call performs only one accessor read — not the two the claim asserts for
every call. -/
theorem c8_counterexample :
    (assert_terminal_instr getAbsent exRef "oops").2 = 1 := by decide

/-- C8 (amended): `assert_type_status` performs exactly one accessor read on
every call (`assert_ready_status`, `assert_ready`, and `assert_not_ready`
delegate to it definitionally, so they read once as well); `assert_terminal`
performs exactly two reads when its initial status check returns normally
and exactly one read when that check raises, since the failure aborts the
call before the second fetch.  The instrumented embeddings agree with the
plain ones, and the accessor is the only effect either performs. -/
theorem c8_read_counts (get : Accessor) (ref : CustomResourceReference)
    (t : String) (b : Bool) (s : String) :
    (assert_type_status_instr get ref t b).1 = assert_type_status get ref t b ∧
    (assert_type_status_instr get ref t b).2 = 1 ∧
    (assert_terminal_instr get ref s).1 = assert_terminal get ref s ∧
    (assert_terminal_instr get ref s).2 =
      (if assert_type_status get ref "Ready" false = .ok then 2 else 1) := by
  refine ⟨?_, ?_, ?_, ?_⟩ <;>
    simp [assert_type_status_instr_spec, assert_terminal_instr_spec]

/-- C6 counterexample: a concrete failing `assert_type_status` call whose
status-mismatch failure message does not contain the stringified resource
reference, refuting the claim that every failure message includes it. -/
theorem c6_counterexample :
    assert_type_status getReadyTrue exRefC6 "Ready" false =
      .failed "Expected Ready condition to have status False but found True" ∧
    py_in exRefC6.render
      "Expected Ready condition to have status False but found True" = false :=
  ⟨by decide, by decide⟩

/-- C6 (amended): every failure message includes the expected and the actual
value, but only the condition-not-found message includes the stringified
resource reference (the counterexample shows the mismatch messages omit it):
the not-found message contains the requested type name and the reference;
a status mismatch contains the stringified expected boolean and the
stringified actual status; a reason mismatch contains `TERMINAL_REASON` and
the stringified actual reason; a message mismatch contains the expected
substring and the actual message. -/
theorem c6_failure_message_contents :
    (∀ (get : Accessor) (ref : CustomResourceReference) (t : String) (b : Bool)
        (m : String), assert_type_status get ref t b = .failed m →
      (get ref t = none ∧ py_in t m = true ∧ py_in ref.render m = true) ∨
      (∃ c, get ref t = some c ∧ py_in (pyStrBool b) m = true ∧
        py_in (pyStr c.status) m = true)) ∧
    (∀ (get : Accessor) (ref : CustomResourceReference) (s m : String),
      assert_terminal get ref s = .failed m →
        assert_type_status get ref "Ready" false = .failed m ∨
        (∃ c, get ref "Ready" = some c ∧
          ((py_in TERMINAL_REASON m = true ∧ py_in (pyStr c.reason) m = true) ∨
           (∃ mm, c.message = some mm ∧ py_in s m = true ∧ py_in mm m = true)))) := by
  constructor
  · intro get ref t b m hm
    unfold assert_type_status at hm
    cases hg : get ref t with
    | none =>
      left
      rw [hg] at hm
      have hm' := Outcome.failed.inj hm
      refine ⟨rfl, ?_, ?_⟩
      · rw [← hm']
        exact py_in_true_of t _ "Failed to find ".data
          (" condition in resource " ++ ref.render).data
          (by simp [String.data_append, List.append_assoc])
      · rw [← hm']
        exact py_in_true_of ref.render _
          ("Failed to find " ++ t ++ " condition in resource ").data []
          (by simp [String.data_append, List.append_assoc])
    | some c =>
      rw [hg] at hm
      by_cases hs : pyStr c.status = pyStrBool b
      · simp [hs] at hm
      · right
        simp [hs] at hm
        refine ⟨c, rfl, ?_, ?_⟩
        · rw [← hm]
          exact py_in_true_of (pyStrBool b) _
            ("Expected " ++ t ++ " condition to have status ").data
            (" but found " ++ pyStr c.status).data
            (by simp [String.data_append, List.append_assoc])
        · rw [← hm]
          exact py_in_true_of (pyStr c.status) _
            ("Expected " ++ t ++ " condition to have status "
              ++ pyStrBool b ++ " but found ").data []
            (by simp [String.data_append, List.append_assoc])
  · intro get ref s m hm
    rcases assert_type_status_ok_or_failed get ref "Ready" false with hts | ⟨m2, hts⟩
    · obtain ⟨c, hc, -⟩ := (assert_type_status_eq_ok_iff get ref "Ready" false).mp hts
      right
      refine ⟨c, hc, ?_⟩
      unfold assert_terminal at hm
      rw [hts] at hm
      simp only [hc] at hm
      by_cases hr : c.reason = some TERMINAL_REASON
      · rw [if_neg (by simp [hr])] at hm
        cases hmsg : c.message with
        | none =>
          rw [hmsg] at hm
          exact Outcome.noConfusion hm
        | some mm =>
          rw [hmsg] at hm
          by_cases hin : py_in s mm = true
          · simp [hin] at hm
          · right
            simp [hin] at hm
            refine ⟨mm, rfl, ?_, ?_⟩
            · rw [← hm]
              exact py_in_true_of s _
                "Expected Ready condition to have message containing \x27".data
                ("\x27 but found \x27" ++ mm ++ "\x27").data
                (by simp [String.data_append, List.append_assoc])
            · rw [← hm]
              exact py_in_true_of mm _
                ("Expected Ready condition to have message containing \x27"
                  ++ s ++ "\x27 but found \x27").data "\x27".data
                (by simp [String.data_append, List.append_assoc])
      · left
        rw [if_pos hr] at hm
        have hm' := Outcome.failed.inj hm
        refine ⟨?_, ?_⟩
        · rw [← hm']
          exact py_in_true_of TERMINAL_REASON _
            "Expected Ready condition to have reason \x27".data
            ("\x27 but found \x27" ++ pyStr c.reason ++ "\x27").data
            (by simp [String.data_append, List.append_assoc])
        · rw [← hm']
          exact py_in_true_of (pyStr c.reason) _
            ("Expected Ready condition to have reason \x27" ++ TERMINAL_REASON
              ++ "\x27 but found \x27").data "\x27".data
            (by simp [String.data_append, List.append_assoc])
    · left
      unfold assert_terminal at hm
      rw [hts] at hm
      have hm' := Outcome.failed.inj hm
      rw [hts, hm']

/-- Witness for the amended C6 at a concrete condition-not-found failure. -/
theorem c6_failure_message_contents_witness :
    (assert_type_status getAbsent exRef "Ready" true =
      .failed "Failed to find Ready condition in resource default/test-resource") ∧
    ((getAbsent exRef "Ready" = none ∧
      py_in "Ready"
        "Failed to find Ready condition in resource default/test-resource" = true ∧
      py_in exRef.render
        "Failed to find Ready condition in resource default/test-resource" = true) ∨
     (∃ c, getAbsent exRef "Ready" = some c ∧
       py_in (pyStrBool true)
         "Failed to find Ready condition in resource default/test-resource" = true ∧
       py_in (pyStr c.status)
         "Failed to find Ready condition in resource default/test-resource" = true)) :=
  ⟨by decide,
    c6_failure_message_contents.1 getAbsent exRef "Ready" true
      "Failed to find Ready condition in resource default/test-resource" (by decide)⟩

end AckTest
